import Mathlib

/-
Verification of the signal-weight calculation and threshold-optimization
subsystem of the ai-cash-evo-ml-api repository.

Sources embedded:
  - AI CASH REVOLUTION/scripts/ml/calculate_signal_weights.py
    (SignalWeightCalculator: the five component scorers, the recommendation
    tier and the position-size multiplier)
  - AI CASH REVOLUTION/scripts/ml/monthly_retrain.py
    (the confidence-threshold sweep, its composite score, the profit-factor
    sentinel, and the deactivate-then-insert activation of a config)
  - scripts/optimize_signal_weights.py
    (the minimum-sample guard, the objective function of the component-weight
    search, and the final normalization of the optimal weight vector)
  - scripts/optimize_from_real_trades.py
    (the minimum-sample guard and its default-threshold fallback)

Numbers are modelled as rationals; Python decimal literals map to the exact
decimal rationals.  Missing dictionary keys are modelled with Option.
np.std is kept abstract: the sweep is parameterized by a function
std : List Q -> Q standing for the numpy standard-deviation routine, since
every property proved here is independent of its exact value.
-/

/-- Python max(0, min(100, x)): the clamp used by four of the five scorers. -/
def pyClamp (x : ℚ) : ℚ := max 0 (min 100 x)

/-- One candle record as consumed by SignalWeightCalculator (dict access
modelled with Option fields; granularity defaults to the empty string the
way candle.get with default does). -/
structure Candle where
  symbol : Option String
  granularity : String
  high : Option ℚ
  low : Option ℚ
  close : Option ℚ
  rsi : Option ℚ
  ema12 : Option ℚ
  ema21 : Option ℚ
  adx : Option ℚ
deriving DecidableEq

/-- One entry of the multi_tf_signals list. -/
structure MTFSignal where
  granularity : String
  label : Option String
deriving DecidableEq

/-- The risk_metrics dict: both keys optional, code reads them with
defaults 0 and 50. -/
structure RiskMetrics where
  current_drawdown_pct : Option ℚ
  symbol_win_rate : Option ℚ
deriving DecidableEq

/-- _score_ml_confidence: piecewise-linear remap of the raw model
confidence.  Note: no clamp in the source. -/
def scoreMlConfidence (confidence : ℚ) : ℚ :=
  if confidence < 50 then confidence * 0.8
  else if confidence < 70 then 40 + (confidence - 50) * 1.5
  else if confidence < 85 then 70 + (confidence - 70) * 1.33
  else 90 + (confidence - 85) * 0.67

/-- RSI contribution of _score_technical_quality (0 when rsi missing). -/
def rsiDelta (direction : String) (rsi : Option ℚ) : ℚ :=
  match rsi with
  | none => 0
  | some r =>
    if direction = "BUY" then
      if r < 30 then 15
      else if r < 50 then 10
      else if 70 < r then -15
      else 0
    else
      if 70 < r then 15
      else if 50 < r then 10
      else if r < 30 then -15
      else 0

/-- EMA trend contribution of _score_technical_quality (0 when either EMA
is missing; ema_bullish means ema12 > ema21). -/
def emaDelta (direction : String) (ema12 ema21 : Option ℚ) : ℚ :=
  match ema12, ema21 with
  | some a, some b =>
    if direction = "BUY" ∧ b < a then 20
    else if direction = "SELL" ∧ ¬ b < a then 20
    else -10
  | _, _ => 0

/-- ADX momentum contribution of _score_technical_quality. -/
def adxDelta (adx : Option ℚ) : ℚ :=
  match adx with
  | none => 0
  | some a =>
    if 25 < a then 15
    else if 20 < a then 10
    else if a < 15 then -10
    else 0

/-- _score_technical_quality: 50 baseline plus RSI, EMA and ADX deltas,
clamped to the 0..100 range. -/
def scoreTechnicalQuality (candle : Candle) (direction : String) : ℚ :=
  pyClamp (50 + rsiDelta direction candle.rsi
    + emaDelta direction candle.ema12 candle.ema21
    + adxDelta candle.adx)

/-- Volatility contribution of _score_market_conditions.  The source reads
high, low, close with default 0 and only enters the block when all three
are truthy (present and nonzero); volatility is range/close*100 when
close > 0, else 0. -/
def volatilityDelta (high low close : Option ℚ) : ℚ :=
  let h := high.getD 0
  let l := low.getD 0
  let c := close.getD 0
  if h ≠ 0 ∧ l ≠ 0 ∧ c ≠ 0 then
    let candleRange := h - l
    let vol := if 0 < c then candleRange / c * 100 else 0
    if 0.05 ≤ vol ∧ vol ≤ 0.15 then 20
    else if 0.03 ≤ vol ∧ vol ≤ 0.20 then 10
    else if 0.30 < vol then -15
    else if vol < 0.02 then -10
    else 0
  else 0

/-- Granularity contribution of _score_market_conditions. -/
def granularityDelta (granularity : String) : ℚ :=
  if granularity = "M5" ∨ granularity = "M15" ∨ granularity = "H1" then 15
  else if granularity = "M1" then -5
  else if granularity = "H4" then 10
  else 0

/-- _score_market_conditions: 50 baseline plus volatility and granularity
deltas, clamped. -/
def scoreMarketConditions (candle : Candle) : ℚ :=
  pyClamp (50 + volatilityDelta candle.high candle.low candle.close
    + granularityDelta candle.granularity)

/-- _score_mtf_confirmation: neutral 50 on the empty list; otherwise
agreements add 15 each, disagreements subtract 10 each, and the loop over
the signals adds 10 for EVERY signal whose timeframe is H4 or H1 and whose
label agrees with the direction; clamped. -/
def scoreMtfConfirmation (direction : String) (sigs : List MTFSignal) : ℚ :=
  if sigs = [] then 50
  else
    let agreements := sigs.countP (fun s => s.label = some direction)
    let disagreements := sigs.length - agreements
    let bonus := (sigs.map (fun s =>
      if (s.granularity = "H4" ∨ s.granularity = "H1") ∧ s.label = some direction
      then (10 : ℚ) else 0)).sum
    pyClamp (50 + (agreements : ℚ) * 15 - (disagreements : ℚ) * 10 + bonus)

/-- _score_risk_factors: 50 baseline, symbol tier, drawdown and
symbol-win-rate deltas, clamped.  The stable list is checked before the
volatile list, as in the source. -/
def scoreRiskFactors (symbol : Option String) (rm : RiskMetrics) : ℚ :=
  let symbolTier : ℚ :=
    if symbol = some "EURUSD" ∨ symbol = some "USDCAD" then 20
    else if symbol = some "XAUUSD" ∨ symbol = some "GBPUSD" then 5
    else 0
  let dd := rm.current_drawdown_pct.getD 0
  let ddTier : ℚ := if 10 < dd then -20 else if 5 < dd then -10 else 0
  let wr := rm.symbol_win_rate.getD 50
  let wrTier : ℚ := if 60 < wr then 15 else if wr < 40 then -15 else 0
  pyClamp (50 + symbolTier + ddTier + wrTier)

/-- The recommendation tiers returned by _get_recommendation. -/
inductive Recommendation where
  | STRONG_BUY
  | BUY
  | WEAK
  | AVOID
deriving DecidableEq

/-- _get_recommendation: fixed breakpoints on the total weight. -/
def getRecommendation (totalWeight : ℚ) : Recommendation :=
  if 75 ≤ totalWeight then .STRONG_BUY
  else if 60 ≤ totalWeight then .BUY
  else if 40 ≤ totalWeight then .WEAK
  else .AVOID

/-- _get_position_multiplier: step function of the total weight. -/
def getPositionMultiplier (totalWeight : ℚ) : ℚ :=
  if 80 ≤ totalWeight then 2.0
  else if 70 ≤ totalWeight then 1.5
  else if 60 ≤ totalWeight then 1.0
  else if 50 ≤ totalWeight then 0.75
  else if 40 ≤ totalWeight then 0.5
  else 0.25

/-
monthly_retrain.py: the confidence-threshold sweep.
-/

/-- One labeled historical signal row as read by monthly_retrain.py
(only the columns the sweep touches). -/
structure HistSignal where
  label_confidence : ℚ
  trade_outcome : String
  win_pips : Option ℚ
  loss_pips : Option ℚ
deriving DecidableEq

/-- Pip value of one row: win_pips (missing read as 0) on a WIN,
minus loss_pips otherwise. -/
def pipValue (s : HistSignal) : ℚ :=
  if s.trade_outcome = "WIN" then s.win_pips.getD 0 else -(s.loss_pips.getD 0)

/-- The fixed candidate thresholds of the monthly sweep. -/
def sweepThresholds : List ℚ := [50, 55, 60, 65, 70, 75, 80, 85, 90, 92, 95]

/-- Rows whose label_confidence reaches the threshold. -/
def qualifiedAt (signals : List HistSignal) (t : ℚ) : List HistSignal :=
  signals.filter (fun s => t ≤ s.label_confidence)

/-- Gross profit: sum of the positive pip values. -/
def grossProfit (pips : List ℚ) : ℚ := (pips.filter (fun p => 0 < p)).sum

/-- Gross loss: absolute value of the sum of the negative pip values. -/
def grossLoss (pips : List ℚ) : ℚ := |(pips.filter (fun p => p < 0)).sum|

/-- profit_factor of the sweep; none encodes the float inf the source
assigns when gross loss is not positive. -/
def profitFactorRaw (pips : List ℚ) : Option ℚ :=
  if 0 < grossLoss pips then some (grossProfit pips / grossLoss pips) else none

/-- min(profit_factor, 10) as used inside the composite score:
min(inf, 10) is 10. -/
def pfCapped (pf : Option ℚ) : ℚ :=
  match pf with
  | none => 10
  | some v => min v 10

/-- The profit_factor field stored in the results record: the sentinel 999
replaces inf. -/
def pfReported (pf : Option ℚ) : ℚ :=
  match pf with
  | none => 999
  | some v => v

/-- One entry of the results list built by the sweep. -/
structure SweepEntry where
  threshold : ℚ
  total_trades : ℕ
  win_rate : ℚ
  avg_pips : ℚ
  sharpe : ℚ
  profit_factor_reported : ℚ
  score : ℚ
deriving DecidableEq

/-- The metrics the sweep computes for one threshold from its qualifying
rows.  std is the abstract numpy standard-deviation routine; the source
guards the Sharpe quotient by len > 1 and std > 0 and otherwise uses 0. -/
def mkEntry (std : List ℚ → ℚ) (t : ℚ) (qualified : List HistSignal) : SweepEntry :=
  let total := qualified.length
  let winCount := qualified.countP (fun s => s.trade_outcome = "WIN")
  let winRate : ℚ := if 0 < total then ((winCount : ℚ) / (total : ℚ)) * 100 else 0
  let pips := qualified.map pipValue
  let totalPips := pips.sum
  let avgPips : ℚ := if 0 < total then totalPips / (total : ℚ) else 0
  let sharpe : ℚ :=
    if 1 < pips.length ∧ 0 < std pips then (pips.sum / (pips.length : ℚ)) / std pips else 0
  let pf := profitFactorRaw pips
  let score := winRate * 0.4 + avgPips * 0.3 + sharpe * 5 + pfCapped pf * 2
  ⟨t, total, winRate, avgPips, sharpe, pfReported pf, score⟩

/-- The results list of the sweep: thresholds whose qualifying set has
fewer than 10 rows are skipped by the continue statement. -/
def sweepResults (std : List ℚ → ℚ) (signals : List HistSignal) : List SweepEntry :=
  sweepThresholds.filterMap (fun t =>
    let q := qualifiedAt signals t
    if q.length < 10 then none else some (mkEntry std t q))

/-- Python max(iterable, key=k): first element of maximal key, none on the
empty list (where the source would raise ValueError). -/
def pyMax {α : Type} (key : α → ℚ) : List α → Option α
  | [] => none
  | e :: es => some (es.foldl (fun acc x => if key acc < key x then x else acc) e)

/-
monthly_retrain.py: activation of the new optimization record
(deactivate every active row, then insert the new row as active).
-/

/-- One row of weight_optimization_history (payload reduced to the
optimal threshold; only the active flag matters to the invariant). -/
structure HistoryRow where
  optimal_threshold : ℚ
  active : Bool
deriving DecidableEq

/-- The update call: set active to false on every row matching
active = true. -/
def deactivateAll (rows : List HistoryRow) : List HistoryRow :=
  rows.map (fun r => if r.active then { r with active := false } else r)

/-- The activation step of monthly_retrain.py: deactivate the previously
active rows, then insert the new record with active = true. -/
def activateConfig (rows : List HistoryRow) (t : ℚ) : List HistoryRow :=
  deactivateAll rows ++ [⟨t, true⟩]

/-- Number of rows marked active. -/
def countActive (rows : List HistoryRow) : ℕ :=
  (rows.filter (fun r => r.active)).length

/-
scripts/optimize_signal_weights.py: minimum-sample guard, objective
function of the differential-evolution search, final normalization.
scripts/optimize_from_real_trades.py: minimum-sample guard with
default-threshold fallback.
-/

/-- How a script run ends at its minimum-sample guard. -/
inductive GuardOutcome where
  | exitFailure
  | exitOkDefault (threshold : ℚ)
  | proceed
deriving DecidableEq

/-- Guard of optimize_signal_weights.py: fewer than 100 historical signals
means exit(1); otherwise optimization proceeds. -/
def optimizeSignalWeightsGuard (n : ℕ) : GuardOutcome :=
  if n < 100 then .exitFailure else .proceed

/-- Guard of optimize_from_real_trades.py: fewer than 50 closed trades
means exit(0) after announcing the DEFAULT threshold 70; otherwise
optimization proceeds. -/
def optimizeFromRealTradesGuard (n : ℕ) : GuardOutcome :=
  if n < 50 then .exitOkDefault 70 else .proceed

/-- One extracted signal record of optimize_signal_weights.py. -/
structure SigData where
  ml_confidence : ℚ
  technical_quality : ℚ
  market_conditions : ℚ
  mtf_confirmation : ℚ
  risk_score : ℚ
  win : ℕ
  pips : ℚ
deriving DecidableEq

/-- A candidate vector of the five component weights. -/
structure W5 where
  wMl : ℚ
  wTech : ℚ
  wMarket : ℚ
  wMtf : ℚ
  wRisk : ℚ
deriving DecidableEq

/-- Sum of the five components. -/
def w5sum (w : W5) : ℚ := w.wMl + w.wTech + w.wMarket + w.wMtf + w.wRisk

/-- calculate_signal_weight: dot product of the component scores with the
candidate weights. -/
def calcSignalWeight (d : SigData) (w : W5) : ℚ :=
  d.ml_confidence * w.wMl + d.technical_quality * w.wTech
    + d.market_conditions * w.wMarket + d.mtf_confirmation * w.wMtf
    + d.risk_score * w.wRisk

/-- objective_function: filter the signals whose weight under the raw
candidate vector reaches 70, return -1000 when fewer than 10 qualify, else
minus the combined 70 percent winrate / 30 percent pips score.  The
candidate weights are used exactly as given: no normalization happens
here. -/
def objectiveFunction (data : List SigData) (w : W5) : ℚ :=
  let qualified := data.filter (fun d => 70 ≤ calcSignalWeight d w)
  if qualified.length < 10 then -1000
  else
    let wins := (qualified.filter (fun s => s.win = 1)).length
    let winrate := ((wins : ℚ) / (qualified.length : ℚ)) * 100
    let avgPips := (qualified.map (fun s => s.pips)).sum / (qualified.length : ℚ)
    let score := winrate * 0.7 + avgPips * 0.3
    (-score)

/-- The one normalization of the script: optimal_weights divided by their
sum, applied once to the vector returned by differential_evolution. -/
def normalizeW (w : W5) : W5 :=
  ⟨w.wMl / w5sum w, w.wTech / w5sum w, w.wMarket / w5sum w,
    w.wMtf / w5sum w, w.wRisk / w5sum w⟩

/-
Concrete inputs used by counterexamples and witnesses, and a definition
transcribing one spec sentence for comparison against the source.
-/

/-- Modelled from the spec wording of the multi-timeframe bonus: a SINGLE
+10 bonus when either of the two highest-order timeframes (H4, H1) agrees
with the direction.  Compared against scoreMtfConfirmation, which was
translated from the source. -/
def specMtfScore (direction : String) (sigs : List MTFSignal) : ℚ :=
  if sigs = [] then 50
  else
    let agreements := sigs.countP (fun s => s.label = some direction)
    let disagreements := sigs.length - agreements
    let bonus : ℚ :=
      if sigs.any (fun s =>
        (s.granularity = "H4" ∨ s.granularity = "H1") ∧ s.label = some direction)
      then 10 else 0
    pyClamp (50 + (agreements : ℚ) * 15 - (disagreements : ℚ) * 10 + bonus)

/-- A candle with both EMAs present and bearish alignment, all other
indicators missing. -/
def c10candle : Candle := ⟨none, "", none, none, none, none, some 1, some 2, none⟩

/-- The example candle of the source module. -/
def candle0 : Candle :=
  ⟨some "EURUSD", "M15", some 1.0865, some 1.0845, some 1.0860,
    some 35, some 1.0855, some 1.0850, some 28⟩

/-- The example risk metrics of the source module. -/
def rm0 : RiskMetrics := ⟨some 3, some 58⟩

/-- Two higher-timeframe signals agreeing with a BUY direction. -/
def mtf2 : List MTFSignal := [⟨"H4", some "BUY"⟩, ⟨"H1", some "BUY"⟩]

/-- Ten labeled winning rows at confidence 60. -/
def sigs10 : List HistSignal := List.replicate 10 ⟨60, "WIN", some 5, none⟩

/-- A concrete stand-in for the abstract numpy std routine. -/
def std0 : List ℚ → ℚ := fun _ => 0

/-- A signal record whose five component scores are all 20. -/
def d20 : SigData := ⟨20, 20, 20, 20, 20, 1, 5⟩

/-- Ten copies of d20. -/
def data10 : List SigData := List.replicate 10 d20

/-- The all-ones candidate weight vector, inside the search bounds but not
on the simplex. -/
def w5ones : W5 := ⟨1, 1, 1, 1, 1⟩

/-
Theorems.
-/

/-- The clamp never goes below 0. -/
theorem pyClamp_nonneg (x : ℚ) : 0 ≤ pyClamp x := le_max_left 0 _

/-- The clamp never exceeds 100. -/
theorem pyClamp_le_100 (x : ℚ) : pyClamp x ≤ 100 :=
  max_le (by norm_num) (min_le_left _ _)

/-- C1: the claim that all five scorers stay within 0..100 on their
documented domains fails: _score_ml_confidence has no clamp and returns
100.05 at confidence 100, which is in the documented domain. -/
theorem c1_counterexample :
    scoreMlConfidence 100 = 2001 / 20 ∧ ¬ scoreMlConfidence 100 ≤ 100 := by
  constructor
  · norm_num [scoreMlConfidence]
  · norm_num [scoreMlConfidence]

/-- C1 (amended): the four clamped scorers return values in 0..100 for
every input; _score_ml_confidence is unclamped: on confidence in 0..100 it
stays within 0..100.05, and stays within 0..100 exactly on the
subinterval up to 6695/67. -/
theorem c1_amended_scorer_ranges (candle : Candle) (direction : String)
    (sigs : List MTFSignal) (symbol : Option String) (rm : RiskMetrics) (conf : ℚ) :
    (0 ≤ scoreTechnicalQuality candle direction ∧
      scoreTechnicalQuality candle direction ≤ 100) ∧
    (0 ≤ scoreMarketConditions candle ∧ scoreMarketConditions candle ≤ 100) ∧
    (0 ≤ scoreMtfConfirmation direction sigs ∧
      scoreMtfConfirmation direction sigs ≤ 100) ∧
    (0 ≤ scoreRiskFactors symbol rm ∧ scoreRiskFactors symbol rm ≤ 100) ∧
    (0 ≤ conf → conf ≤ 100 →
      0 ≤ scoreMlConfidence conf ∧ scoreMlConfidence conf ≤ 100.05) ∧
    (0 ≤ conf → conf ≤ 6695 / 67 → scoreMlConfidence conf ≤ 100) := by
  refine ⟨⟨pyClamp_nonneg _, pyClamp_le_100 _⟩, ⟨pyClamp_nonneg _, pyClamp_le_100 _⟩,
    ?_, ⟨pyClamp_nonneg _, pyClamp_le_100 _⟩, ?_, ?_⟩
  · unfold scoreMtfConfirmation
    by_cases h : sigs = []
    · rw [if_pos h]; norm_num
    · rw [if_neg h]; exact ⟨pyClamp_nonneg _, pyClamp_le_100 _⟩
  · intro h0 h100
    unfold scoreMlConfidence
    split_ifs with h1 h2 h3 <;> constructor <;> nlinarith
  · intro h0 h67
    unfold scoreMlConfidence
    split_ifs with h1 h2 h3 <;> nlinarith

/-- C1 witness: the amended range theorem applied at the example candle,
the BUY direction and confidence 68. -/
theorem c1_witness :
    (0 : ℚ) ≤ 68 ∧ (68 : ℚ) ≤ 100 ∧ (68 : ℚ) ≤ 6695 / 67 ∧
    (0 ≤ scoreMlConfidence 68 ∧ scoreMlConfidence 68 ≤ 100.05) ∧
    scoreMlConfidence 68 ≤ 100 ∧
    0 ≤ scoreTechnicalQuality candle0 "BUY" ∧
    scoreTechnicalQuality candle0 "BUY" ≤ 100 := by
  have h := c1_amended_scorer_ranges candle0 "BUY" [] (some "EURUSD") rm0 68
  exact ⟨by norm_num, by norm_num, by norm_num,
    h.2.2.2.2.1 (by norm_num) (by norm_num),
    h.2.2.2.2.2 (by norm_num) (by norm_num), h.1.1, h.1.2⟩

/-- C5: the recommendation tier and the position multiplier are exactly
the documented step functions of the total weight, including the two
scenario points 82 and 45. -/
theorem c5_recommendation_tiers (w : ℚ) :
    (75 ≤ w → getRecommendation w = .STRONG_BUY) ∧
    (60 ≤ w → w < 75 → getRecommendation w = .BUY) ∧
    (40 ≤ w → w < 60 → getRecommendation w = .WEAK) ∧
    (w < 40 → getRecommendation w = .AVOID) ∧
    (80 ≤ w → getPositionMultiplier w = 2.0) ∧
    (70 ≤ w → w < 80 → getPositionMultiplier w = 1.5) ∧
    (60 ≤ w → w < 70 → getPositionMultiplier w = 1.0) ∧
    (50 ≤ w → w < 60 → getPositionMultiplier w = 0.75) ∧
    (40 ≤ w → w < 50 → getPositionMultiplier w = 0.5) ∧
    (w < 40 → getPositionMultiplier w = 0.25) ∧
    getRecommendation 82 = .STRONG_BUY ∧ getPositionMultiplier 82 = 2.0 ∧
    getRecommendation 45 = .WEAK ∧ getPositionMultiplier 45 = 0.5 := by
  unfold getRecommendation getPositionMultiplier
  refine ⟨?_, ?_, ?_, ?_, ?_, ?_, ?_, ?_, ?_, ?_,
    by norm_num, by norm_num, by norm_num, by norm_num⟩ <;>
    intros <;> split_ifs <;> first | rfl | linarith

/-- C5 witness: the tier theorem applied at the scenario weights 82 and
45. -/
theorem c5_witness :
    getRecommendation 82 = .STRONG_BUY ∧ getPositionMultiplier 45 = 0.5 := by
  obtain ⟨h75, -, -, -, -, -, -, -, -, -, -, -, -, -⟩ := c5_recommendation_tiers 82
  obtain ⟨-, -, -, -, -, -, -, -, h45, -, -, -, -, -⟩ := c5_recommendation_tiers 45
  exact ⟨h75 (by norm_num), h45 (by norm_num) (by norm_num)⟩

/-- C6: _score_ml_confidence is exactly the documented piecewise-linear
remap, and maps confidence 68 to exactly 67. -/
theorem c6_ml_confidence_remap (c : ℚ) :
    (0 ≤ c → c < 50 → scoreMlConfidence c = c * 0.8) ∧
    (50 ≤ c → c < 70 → scoreMlConfidence c = 40 + (c - 50) * 1.5) ∧
    (70 ≤ c → c < 85 → scoreMlConfidence c = 70 + (c - 70) * 1.33) ∧
    (85 ≤ c → c ≤ 100 → scoreMlConfidence c = 90 + (c - 85) * 0.67) ∧
    scoreMlConfidence 68 = 67 := by
  unfold scoreMlConfidence
  refine ⟨?_, ?_, ?_, ?_, by norm_num⟩ <;>
    intros <;> split_ifs <;> first | rfl | linarith

/-- C6 witness: the remap theorem applied at confidence 68. -/
theorem c6_witness :
    (50 : ℚ) ≤ 68 ∧ (68 : ℚ) < 70 ∧
    scoreMlConfidence 68 = 40 + (68 - 50) * 1.5 := by
  obtain ⟨-, h, -, -, -⟩ := c6_ml_confidence_remap 68
  exact ⟨by norm_num, by norm_num, h (by norm_num) (by norm_num)⟩

/-- The per-signal H4/H1 bonus loop sums to 10 times the number of
agreeing higher-timeframe signals. -/
theorem mtfBonus_eq_count (direction : String) (sigs : List MTFSignal) :
    (sigs.map (fun s =>
      if (s.granularity = "H4" ∨ s.granularity = "H1") ∧ s.label = some direction
      then (10 : ℚ) else 0)).sum
    = 10 * (sigs.countP (fun s =>
        (s.granularity = "H4" ∨ s.granularity = "H1") ∧ s.label = some direction) : ℚ) := by
  induction sigs with
  | nil => simp
  | cons s t ih =>
    by_cases h : (s.granularity = "H4" ∨ s.granularity = "H1") ∧ s.label = some direction
    · simp only [List.map_cons, List.sum_cons, List.countP_cons, if_pos h, ih,
        decide_eq_true_eq, h, and_self, if_true]
      push_cast
      ring
    · simp only [List.map_cons, List.sum_cons, List.countP_cons, if_neg h, ih]
      simp [h]

/-- C7: the claim of a single +10 higher-timeframe bonus fails: the source
adds +10 for every agreeing H4/H1 signal, so two agreeing higher
timeframes score 100 where the claimed rule gives 90. -/
theorem c7_counterexample :
    scoreMtfConfirmation "BUY" mtf2 = 100 ∧
    specMtfScore "BUY" mtf2 = 90 ∧
    scoreMtfConfirmation "BUY" mtf2 ≠ specMtfScore "BUY" mtf2 := by
  have h1 : scoreMtfConfirmation "BUY" mtf2 = 100 := by
    unfold scoreMtfConfirmation
    rw [if_neg (by decide : ¬ mtf2 = [])]
    norm_num [mtf2, List.countP_cons, List.countP_nil, pyClamp, min_def, max_def]
  have h2 : specMtfScore "BUY" mtf2 = 90 := by
    unfold specMtfScore
    rw [if_neg (by decide : ¬ mtf2 = [])]
    norm_num [mtf2, List.countP_cons, List.countP_nil, pyClamp, min_def, max_def]
  refine ⟨h1, h2, ?_⟩
  rw [h1, h2]
  norm_num

/-- C7 (amended): the score is 50 on the empty list, and otherwise the
clamp of 50 plus 15 per agreement, minus 10 per disagreement, plus 10 per
agreeing H4/H1 signal (the bonus repeats per signal instead of being
granted once); the result is always within 0..100. -/
theorem c7_amended_mtf_score (direction : String) (sigs : List MTFSignal) :
    scoreMtfConfirmation direction [] = 50 ∧
    (sigs ≠ [] →
      scoreMtfConfirmation direction sigs =
        pyClamp (50 + (sigs.countP (fun s => s.label = some direction) : ℚ) * 15
          - ((sigs.length - sigs.countP (fun s => s.label = some direction) : ℕ) : ℚ) * 10
          + 10 * (sigs.countP (fun s =>
              (s.granularity = "H4" ∨ s.granularity = "H1")
                ∧ s.label = some direction) : ℚ))) ∧
    0 ≤ scoreMtfConfirmation direction sigs ∧
    scoreMtfConfirmation direction sigs ≤ 100 := by
  refine ⟨rfl, ?_, ?_, ?_⟩
  · intro h
    unfold scoreMtfConfirmation
    rw [if_neg h, mtfBonus_eq_count]
  · unfold scoreMtfConfirmation
    by_cases h : sigs = []
    · rw [if_pos h]; norm_num
    · rw [if_neg h]; exact pyClamp_nonneg _
  · unfold scoreMtfConfirmation
    by_cases h : sigs = []
    · rw [if_pos h]; norm_num
    · rw [if_neg h]; exact pyClamp_le_100 _

/-- C7 witness: the amended characterization applied to the two agreeing
higher-timeframe signals. -/
theorem c7_witness :
    scoreMtfConfirmation "BUY" mtf2 =
      pyClamp (50 + (mtf2.countP (fun s => s.label = some "BUY") : ℚ) * 15
        - ((mtf2.length - mtf2.countP (fun s => s.label = some "BUY") : ℕ) : ℚ) * 10
        + 10 * (mtf2.countP (fun s =>
            (s.granularity = "H4" ∨ s.granularity = "H1")
              ∧ s.label = some "BUY") : ℚ)) :=
  (c7_amended_mtf_score "BUY" mtf2).2.1 (by decide)

/-- C8: when the gross loss of a pip sample is zero, the internal profit
factor is the infinity marker, but the reported metrics carry the finite
sentinel 999 and the composite score uses the finite cap 10. -/
theorem c8_profit_factor_sentinel (pips : List ℚ) (h : grossLoss pips = 0) :
    profitFactorRaw pips = none ∧
    pfReported (profitFactorRaw pips) = 999 ∧
    pfCapped (profitFactorRaw pips) = 10 := by
  have hn : ¬ 0 < grossLoss pips := by rw [h]; exact lt_irrefl 0
  unfold profitFactorRaw
  rw [if_neg hn]
  exact ⟨rfl, rfl, rfl⟩

/-- C8 witness: the sentinel theorem applied to an all-profit pip
sample. -/
theorem c8_witness :
    grossLoss [(5 : ℚ), 3] = 0 ∧
    pfReported (profitFactorRaw [(5 : ℚ), 3]) = 999 ∧
    pfCapped (profitFactorRaw [(5 : ℚ), 3]) = 10 := by
  have h : grossLoss [(5 : ℚ), 3] = 0 := by decide
  exact ⟨h, (c8_profit_factor_sentinel _ h).2.1, (c8_profit_factor_sentinel _ h).2.2⟩

/-- Every row of the deactivation update is inactive. -/
theorem deactivateAll_inactive (rows : List HistoryRow) :
    ∀ x ∈ deactivateAll rows, x.active = false := by
  intro x hx
  rcases List.mem_map.mp hx with ⟨r, -, rfl⟩
  by_cases h : r.active <;> simp [h]

/-- After the deactivation update no row is active. -/
theorem countActive_deactivateAll (rows : List HistoryRow) :
    countActive (deactivateAll rows) = 0 := by
  unfold countActive
  rw [List.length_eq_zero, List.filter_eq_nil_iff]
  intro x hx
  simp [deactivateAll_inactive rows x hx]

/-- Activating any record leaves exactly one active row. -/
theorem countActive_activateConfig (rows : List HistoryRow) (t : ℚ) :
    countActive (activateConfig rows t) = 1 := by
  unfold activateConfig countActive
  rw [List.filter_append, List.length_append]
  have h := countActive_deactivateAll rows
  unfold countActive at h
  rw [h]
  rfl

/-- C9: every completed activation leaves exactly one active config, and
activating A then B leaves the history with A deactivated and B as the
single active row. -/
theorem c9_single_active_config (rows : List HistoryRow) (a b : ℚ) :
    countActive (activateConfig rows a) = 1 ∧
    activateConfig (activateConfig rows a) b
      = deactivateAll (deactivateAll rows) ++ [⟨a, false⟩, ⟨b, true⟩] ∧
    countActive (activateConfig (activateConfig rows a) b) = 1 := by
  refine ⟨countActive_activateConfig rows a, ?_, countActive_activateConfig _ b⟩
  show deactivateAll (deactivateAll rows ++ [⟨a, true⟩]) ++ [⟨b, true⟩] = _
  unfold deactivateAll
  rw [List.map_append]
  simp

/-- C9 witness: the activation round trip on a concrete one-row history. -/
theorem c9_witness :
    countActive (activateConfig (activateConfig [⟨60, true⟩] 65) 70) = 1 ∧
    activateConfig (activateConfig [⟨60, true⟩] 65) 70
      = [⟨60, false⟩, ⟨65, false⟩, ⟨70, true⟩] := by
  have h := c9_single_active_config [⟨60, true⟩] 65 70
  refine ⟨h.2.2, ?_⟩
  rw [h.2.1]
  rfl

/-- C10: the claim that HOLD is scored identically to SELL fails: on a
candle with bearish EMA alignment the EMA bonus requires the direction to
be literally SELL, so HOLD scores 40 where SELL scores 70. -/
theorem c10_counterexample :
    scoreTechnicalQuality c10candle "HOLD" = 40 ∧
    scoreTechnicalQuality c10candle "SELL" = 70 ∧
    scoreTechnicalQuality c10candle "HOLD" ≠ scoreTechnicalQuality c10candle "SELL" := by
  have h1 : scoreTechnicalQuality c10candle "HOLD" = 40 := by
    simp +decide [scoreTechnicalQuality, c10candle, rsiDelta, emaDelta, adxDelta,
      pyClamp, min_def, max_def]
    norm_num
  have h2 : scoreTechnicalQuality c10candle "SELL" = 70 := by
    simp +decide [scoreTechnicalQuality, c10candle, rsiDelta, emaDelta, adxDelta,
      pyClamp, min_def, max_def]
    norm_num
  refine ⟨h1, h2, ?_⟩
  rw [h1, h2]
  norm_num

/-- C10 (amended): for a direction that is neither BUY nor SELL the RSI
rules are the SELL rules, but the EMA branch always yields the -10
counter-trend penalty whenever both EMAs are present; consequently such a
direction is scored identically to SELL exactly when an EMA is missing or
the alignment is bullish. -/
theorem c10_amended_non_buy_directions (candle : Candle) (direction : String)
    (hb : direction ≠ "BUY") (hs : direction ≠ "SELL") :
    rsiDelta direction candle.rsi = rsiDelta "SELL" candle.rsi ∧
    scoreTechnicalQuality candle direction
      = pyClamp (50 + rsiDelta "SELL" candle.rsi
          + (if candle.ema12.isSome ∧ candle.ema21.isSome then -10 else 0)
          + adxDelta candle.adx) ∧
    ((candle.ema12 = none ∨ candle.ema21 = none) →
      scoreTechnicalQuality candle direction = scoreTechnicalQuality candle "SELL") ∧
    (∀ x y, candle.ema12 = some x → candle.ema21 = some y → y < x →
      scoreTechnicalQuality candle direction = scoreTechnicalQuality candle "SELL") := by
  have hrsi : rsiDelta direction candle.rsi = rsiDelta "SELL" candle.rsi := by
    cases candle.rsi with
    | none => rfl
    | some r => simp +decide [rsiDelta, hb]
  have hema : emaDelta direction candle.ema12 candle.ema21
      = (if candle.ema12.isSome ∧ candle.ema21.isSome then -10 else 0) := by
    cases h12 : candle.ema12 with
    | none => simp [emaDelta]
    | some x =>
      cases h21 : candle.ema21 with
      | none => simp [emaDelta]
      | some y => simp +decide [emaDelta, hb, hs]
  refine ⟨hrsi, ?_, ?_, ?_⟩
  · unfold scoreTechnicalQuality
    rw [hrsi, hema]
  · intro hmiss
    unfold scoreTechnicalQuality
    rw [hrsi]
    have h2 : emaDelta direction candle.ema12 candle.ema21
        = emaDelta "SELL" candle.ema12 candle.ema21 := by
      rcases hmiss with h | h
      · rw [h]; cases candle.ema21 <;> simp [emaDelta]
      · rw [h]; cases candle.ema12 <;> simp [emaDelta]
    rw [h2]
  · intro x y h12 h21 hxy
    unfold scoreTechnicalQuality
    rw [hrsi, h12, h21]
    have h2 : emaDelta direction (some x) (some y) = emaDelta "SELL" (some x) (some y) := by
      simp +decide [emaDelta, hb, hs, hxy]
    rw [h2]

/-- C10 witness: the amended characterization applied to the bearish-EMA
candle with direction HOLD. -/
theorem c10_witness :
    scoreTechnicalQuality c10candle "HOLD"
      = pyClamp (50 + rsiDelta "SELL" c10candle.rsi
          + (if c10candle.ema12.isSome ∧ c10candle.ema21.isSome then -10 else 0)
          + adxDelta c10candle.adx) :=
  (c10_amended_non_buy_directions c10candle "HOLD" (by decide) (by decide)).2.1

/-- The running value of the Python max fold dominates the seed and every
scanned element. -/
theorem pyMax_foldl_le {α : Type} (key : α → ℚ) :
    ∀ (l : List α) (a : α),
      key a ≤ key (l.foldl (fun acc x => if key acc < key x then x else acc) a) ∧
      ∀ e ∈ l, key e ≤ key (l.foldl (fun acc x => if key acc < key x then x else acc) a)
  | [], a => by simp
  | b :: t, a => by
    simp only [List.foldl_cons]
    by_cases h : key a < key b
    · rw [if_pos h]
      refine ⟨le_trans h.le (pyMax_foldl_le key t b).1, ?_⟩
      intro e he
      rcases List.mem_cons.mp he with rfl | he
      · exact (pyMax_foldl_le key t e).1
      · exact (pyMax_foldl_le key t b).2 e he
    · rw [if_neg h]
      refine ⟨(pyMax_foldl_le key t a).1, ?_⟩
      intro e he
      rcases List.mem_cons.mp he with rfl | he
      · exact le_trans (not_lt.mp h) (pyMax_foldl_le key t a).1
      · exact (pyMax_foldl_le key t a).2 e he

/-- The result of the Python max fold is the seed or one of the scanned
elements. -/
theorem pyMax_foldl_mem {α : Type} (key : α → ℚ) :
    ∀ (l : List α) (a : α),
      l.foldl (fun acc x => if key acc < key x then x else acc) a = a ∨
      l.foldl (fun acc x => if key acc < key x then x else acc) a ∈ l
  | [], _ => Or.inl rfl
  | b :: t, a => by
    simp only [List.foldl_cons]
    by_cases h : key a < key b
    · rw [if_pos h]
      rcases pyMax_foldl_mem key t b with h1 | h1
      · right
        rw [h1]
        exact List.mem_cons_self b t
      · exact Or.inr (List.mem_cons_of_mem b h1)
    · rw [if_neg h]
      rcases pyMax_foldl_mem key t a with h1 | h1
      · exact Or.inl h1
      · exact Or.inr (List.mem_cons_of_mem b h1)

/-- Python max over a nonempty list returns a member whose key dominates
every element. -/
theorem pyMax_spec {α : Type} (key : α → ℚ) (l : List α) (opt : α)
    (h : pyMax key l = some opt) :
    opt ∈ l ∧ ∀ e ∈ l, key e ≤ key opt := by
  cases l with
  | nil => exact absurd h (by simp [pyMax])
  | cons b t =>
    have h' : some (t.foldl (fun acc x => if key acc < key x then x else acc) b)
        = some opt := h
    have hopt := Option.some.inj h'
    constructor
    · rcases pyMax_foldl_mem key t b with h1 | h1
      · rw [← hopt, h1]
        exact List.mem_cons_self b t
      · rw [← hopt]
        exact List.mem_cons_of_mem b h1
    · intro e he
      rw [← hopt]
      rcases List.mem_cons.mp he with rfl | he
      · exact (pyMax_foldl_le key t e).1
      · exact (pyMax_foldl_le key t b).2 e he

/-- min over the capped and the reported presentation of the profit factor
agree (999 and inf both cap to 10). -/
theorem pfCapped_eq_min_reported (pf : Option ℚ) :
    pfCapped pf = min (pfReported pf) 10 := by
  cases pf with
  | none => norm_num [pfCapped, pfReported]
  | some v => rfl

/-- Every sweep entry arises from one of the fixed thresholds whose
qualifying set reaches the 10-trade minimum. -/
theorem mem_sweepResults {std : List ℚ → ℚ} {signals : List HistSignal} {e : SweepEntry}
    (he : e ∈ sweepResults std signals) :
    ∃ t, t ∈ sweepThresholds ∧ ¬ (qualifiedAt signals t).length < 10 ∧
      e = mkEntry std t (qualifiedAt signals t) := by
  have he' : e ∈ sweepThresholds.filterMap (fun t =>
      if (qualifiedAt signals t).length < 10 then none
      else some (mkEntry std t (qualifiedAt signals t))) := he
  rcases List.mem_filterMap.mp he' with ⟨t, ht, hf⟩
  by_cases h : (qualifiedAt signals t).length < 10
  · rw [if_pos h] at hf
    exact absurd hf (by simp)
  · rw [if_neg h] at hf
    exact ⟨t, ht, h, (Option.some.inj hf).symm⟩

/-- C2: every scored threshold has at least 10 qualifying trades and its
composite score is winrate*0.4 + avg_pips*0.3 + sharpe*5 +
min(profit_factor, 10)*2; thresholds with fewer than 10 qualifying trades
never enter the results list; the Sharpe term is 0 when the sample has at
most one trade or the standard deviation is 0; and the selected optimum
is a results entry of maximal composite score. -/
theorem c2_threshold_sweep (std : List ℚ → ℚ) (signals : List HistSignal) :
    (∀ e ∈ sweepResults std signals,
        10 ≤ e.total_trades ∧
        e.total_trades = (qualifiedAt signals e.threshold).length ∧
        e.score = e.win_rate * 0.4 + e.avg_pips * 0.3 + e.sharpe * 5
          + min e.profit_factor_reported 10 * 2) ∧
    (∀ t ∈ sweepThresholds, (qualifiedAt signals t).length < 10 →
        ∀ e ∈ sweepResults std signals, e.threshold ≠ t) ∧
    (∀ t, (qualifiedAt signals t).length ≤ 1 ∨
        std ((qualifiedAt signals t).map pipValue) = 0 →
        (mkEntry std t (qualifiedAt signals t)).sharpe = 0) ∧
    (∀ opt, pyMax (fun e => e.score) (sweepResults std signals) = some opt →
        opt ∈ sweepResults std signals ∧
        ∀ e ∈ sweepResults std signals, e.score ≤ opt.score) := by
  refine ⟨?_, ?_, ?_, ?_⟩
  · intro e he
    rcases mem_sweepResults he with ⟨t, ht, hlen, rfl⟩
    have h10 : 10 ≤ (qualifiedAt signals t).length := not_lt.mp hlen
    refine ⟨by simpa [mkEntry] using h10, by simp [mkEntry], ?_⟩
    simp only [mkEntry]
    rw [pfCapped_eq_min_reported]
  · intro t ht hlt e he
    rcases mem_sweepResults he with ⟨u, hu, hlen, rfl⟩
    intro hth
    have hut : u = t := by simpa [mkEntry] using hth
    rw [hut] at hlen
    exact hlen hlt
  · intro t hcond
    have hneg : ¬ (1 < ((qualifiedAt signals t).map pipValue).length ∧
        0 < std ((qualifiedAt signals t).map pipValue)) := by
      rintro ⟨hg1, hg2⟩
      rcases hcond with hc | hc
      · rw [List.length_map] at hg1
        omega
      · rw [hc] at hg2
        exact lt_irrefl 0 hg2
    simp only [mkEntry, hneg, if_false]
  · intro opt hopt
    exact pyMax_spec _ _ _ hopt

/-- C2 witness: the sweep theorem applied to ten winning rows at
confidence 60 with a zero std routine: threshold 50 qualifies and is
selected, threshold 65 has no qualifying rows and is excluded. -/
theorem c2_witness :
    (mkEntry std0 50 (qualifiedAt sigs10 50)) ∈ sweepResults std0 sigs10 ∧
    (mkEntry std0 50 (qualifiedAt sigs10 50)).score
      = (mkEntry std0 50 (qualifiedAt sigs10 50)).win_rate * 0.4
        + (mkEntry std0 50 (qualifiedAt sigs10 50)).avg_pips * 0.3
        + (mkEntry std0 50 (qualifiedAt sigs10 50)).sharpe * 5
        + min (mkEntry std0 50 (qualifiedAt sigs10 50)).profit_factor_reported 10 * 2 ∧
    (qualifiedAt sigs10 65).length < 10 ∧
    (mkEntry std0 50 (qualifiedAt sigs10 50)).threshold ≠ 65 ∧
    (mkEntry std0 60 (qualifiedAt sigs10 60)).score
      ≤ (mkEntry std0 50 (qualifiedAt sigs10 50)).score := by
  obtain ⟨ha, hb, -, hd⟩ := c2_threshold_sweep std0 sigs10
  have hq50 : qualifiedAt sigs10 50 = sigs10 := by decide
  have hq55 : qualifiedAt sigs10 55 = sigs10 := by decide
  have hq60 : qualifiedAt sigs10 60 = sigs10 := by decide
  have hlen : ¬ sigs10.length < 10 := by decide
  have hres : sweepResults std0 sigs10
      = [mkEntry std0 50 (qualifiedAt sigs10 50), mkEntry std0 55 (qualifiedAt sigs10 55),
          mkEntry std0 60 (qualifiedAt sigs10 60)] := by
    show sweepThresholds.filterMap (fun t =>
      if (qualifiedAt sigs10 t).length < 10 then none
      else some (mkEntry std0 t (qualifiedAt sigs10 t))) = _
    simp only [sweepThresholds, List.filterMap_cons, List.filterMap_nil]
    rw [if_neg (by rw [hq50]; exact hlen), if_neg (by rw [hq55]; exact hlen),
      if_neg (by rw [hq60]; exact hlen),
      if_pos (by decide : (qualifiedAt sigs10 65).length < 10),
      if_pos (by decide : (qualifiedAt sigs10 70).length < 10),
      if_pos (by decide : (qualifiedAt sigs10 75).length < 10),
      if_pos (by decide : (qualifiedAt sigs10 80).length < 10),
      if_pos (by decide : (qualifiedAt sigs10 85).length < 10),
      if_pos (by decide : (qualifiedAt sigs10 90).length < 10),
      if_pos (by decide : (qualifiedAt sigs10 92).length < 10),
      if_pos (by decide : (qualifiedAt sigs10 95).length < 10)]
  have hmem50 : mkEntry std0 50 (qualifiedAt sigs10 50) ∈ sweepResults std0 sigs10 := by
    rw [hres]
    exact List.mem_cons_self _ _
  have hmem60 : mkEntry std0 60 (qualifiedAt sigs10 60) ∈ sweepResults std0 sigs10 := by
    rw [hres]
    exact List.mem_cons_of_mem _ (List.mem_cons_of_mem _ (List.mem_cons_self _ _))
  have h65 : (qualifiedAt sigs10 65).length < 10 := by decide
  have hcount : sigs10.countP (fun s => decide (s.trade_outcome = "WIN")) = 10 := by decide
  have hlen10 : sigs10.length = 10 := by decide
  have hmap : sigs10.map pipValue = List.replicate 10 (5 : ℚ) := by decide
  have hsum : (sigs10.map pipValue).sum = 50 := by
    rw [hmap, List.sum_replicate]
    norm_num
  have hmaplen : (sigs10.map pipValue).length = 10 := by decide
  have hpf : profitFactorRaw (sigs10.map pipValue) = none := by decide
  have hs : ∀ t : ℚ, (mkEntry std0 t sigs10).score = 123 / 2 := by
    intro t
    simp only [mkEntry]
    rw [hcount, hsum, hmaplen, hpf, hlen10]
    norm_num [std0, pfCapped]
  have h5055 : ¬ (mkEntry std0 50 (qualifiedAt sigs10 50)).score
      < (mkEntry std0 55 (qualifiedAt sigs10 55)).score := by
    rw [hq50, hq55, hs 50, hs 55]
    exact lt_irrefl _
  have h5060 : ¬ (mkEntry std0 50 (qualifiedAt sigs10 50)).score
      < (mkEntry std0 60 (qualifiedAt sigs10 60)).score := by
    rw [hq50, hq60, hs 50, hs 60]
    exact lt_irrefl _
  have hmax : pyMax (fun e => e.score) (sweepResults std0 sigs10)
      = some (mkEntry std0 50 (qualifiedAt sigs10 50)) := by
    rw [hres]
    simp only [pyMax, List.foldl_cons, List.foldl_nil]
    rw [if_neg h5055, if_neg h5060]
  exact ⟨hmem50, (ha _ hmem50).2.2, h65,
    hb 65 (by decide) h65 _ hmem50, (hd _ hmax).2 _ hmem60⟩

/-- C3: the claim fails on the real-trades optimizer: with 99 trades it
does not refuse (its minimum is 50, not 100), and below 50 trades it
exits successfully announcing a default threshold of 70 instead of
raising an error. -/
theorem c3_counterexample :
    optimizeFromRealTradesGuard 99 = GuardOutcome.proceed ∧
    optimizeFromRealTradesGuard 49 = GuardOutcome.exitOkDefault 70 := by
  constructor <;> rfl

/-- C3 (amended): optimize_signal_weights.py refuses with a failure exit
status exactly below 100 records (at 99 it refuses, at 100 it proceeds),
while optimize_from_real_trades.py refuses exactly below 50 records and
then exits successfully recommending the default threshold 70; neither
raises a typed InsufficientDataError. -/
theorem c3_amended_sample_guards (n : ℕ) :
    (optimizeSignalWeightsGuard n = GuardOutcome.exitFailure ↔ n < 100) ∧
    (optimizeSignalWeightsGuard n = GuardOutcome.proceed ↔ 100 ≤ n) ∧
    (optimizeFromRealTradesGuard n = GuardOutcome.exitOkDefault 70 ↔ n < 50) ∧
    (optimizeFromRealTradesGuard n = GuardOutcome.proceed ↔ 50 ≤ n) ∧
    optimizeSignalWeightsGuard 99 = GuardOutcome.exitFailure ∧
    optimizeSignalWeightsGuard 100 = GuardOutcome.proceed := by
  unfold optimizeSignalWeightsGuard optimizeFromRealTradesGuard
  refine ⟨?_, ?_, ?_, ?_, by norm_num, by norm_num⟩ <;>
    split_ifs with h <;> simp [h] <;> omega

/-- C3 witness: the amended guard theorem applied at 99 records. -/
theorem c3_witness :
    optimizeSignalWeightsGuard 99 = GuardOutcome.exitFailure ∧
    optimizeFromRealTradesGuard 99 = GuardOutcome.proceed := by
  have h := c3_amended_sample_guards 99
  exact ⟨h.2.2.2.2.1, h.2.2.2.1.mpr (by norm_num)⟩

/-- C4: the claim that every candidate is evaluated on normalized weights
fails: the objective function scores the raw candidate vector, and on ten
identical signals the all-ones candidate scores -71.5 while its
normalization scores -1000. -/
theorem c4_counterexample :
    objectiveFunction data10 w5ones ≠ objectiveFunction data10 (normalizeW w5ones) ∧
    objectiveFunction data10 w5ones = -(143 / 2) ∧
    objectiveFunction data10 (normalizeW w5ones) = -1000 := by
  have hcw : calcSignalWeight d20 w5ones = 100 := by
    norm_num [calcSignalWeight, d20, w5ones]
  have ht : List.filter (fun d => decide (70 ≤ calcSignalWeight d w5ones)) data10
      = data10 := by
    rw [List.filter_eq_self]
    intro d hd
    have hdd : d = d20 := List.eq_of_mem_replicate hd
    rw [hdd, hcw]
    simp only [decide_eq_true_eq]
    norm_num
  have hwin : List.filter (fun s => decide (s.win = 1)) data10 = data10 := by decide
  have hlen10 : data10.length = 10 := by decide
  have hpmap : data10.map (fun s => s.pips) = List.replicate 10 (5 : ℚ) := by decide
  have hpsum : (data10.map (fun s => s.pips)).sum = 50 := by
    rw [hpmap, List.sum_replicate]
    norm_num
  have h1 : objectiveFunction data10 w5ones = -(143 / 2) := by
    simp only [objectiveFunction]
    rw [ht, hwin, hpsum, hlen10]
    norm_num
  have hfilter2 : List.filter
      (fun d => decide (70 ≤ calcSignalWeight d (normalizeW w5ones))) data10 = [] := by
    rw [List.filter_eq_nil_iff]
    intro d hd
    have hdd : d = d20 := List.eq_of_mem_replicate hd
    have hn : normalizeW w5ones = ⟨1/5, 1/5, 1/5, 1/5, 1/5⟩ := by
      norm_num [normalizeW, w5sum, w5ones]
    rw [hdd, hn]
    simp only [decide_eq_true_eq]
    norm_num [calcSignalWeight, d20]
  have h2 : objectiveFunction data10 (normalizeW w5ones) = -1000 := by
    simp only [objectiveFunction]
    rw [hfilter2]
    norm_num
  refine ⟨?_, h1, h2⟩
  rw [h1, h2]
  norm_num

/-- C4 (amended): normalization is applied once, to the final vector
returned by the search; for any raw optimum with non-negative components
and positive sum the returned config has non-negative components summing
to 1. -/
theorem c4_amended_final_normalization (w : W5)
    (h0 : 0 ≤ w.wMl) (h1 : 0 ≤ w.wTech) (h2 : 0 ≤ w.wMarket) (h3 : 0 ≤ w.wMtf)
    (h4 : 0 ≤ w.wRisk) (hs : 0 < w5sum w) :
    0 ≤ (normalizeW w).wMl ∧ 0 ≤ (normalizeW w).wTech ∧ 0 ≤ (normalizeW w).wMarket ∧
    0 ≤ (normalizeW w).wMtf ∧ 0 ≤ (normalizeW w).wRisk ∧
    w5sum (normalizeW w) = 1 := by
  refine ⟨div_nonneg h0 hs.le, div_nonneg h1 hs.le, div_nonneg h2 hs.le,
    div_nonneg h3 hs.le, div_nonneg h4 hs.le, ?_⟩
  show w.wMl / w5sum w + w.wTech / w5sum w + w.wMarket / w5sum w
      + w.wMtf / w5sum w + w.wRisk / w5sum w = 1
  rw [div_add_div_same, div_add_div_same, div_add_div_same, div_add_div_same]
  exact div_self (ne_of_gt hs)

/-- C4 witness: the normalization theorem applied to the all-ones raw
vector. -/
theorem c4_witness :
    (0 : ℚ) ≤ w5ones.wMl ∧ 0 < w5sum w5ones ∧ w5sum (normalizeW w5ones) = 1 := by
  have h := c4_amended_final_normalization w5ones (by norm_num [w5ones])
    (by norm_num [w5ones]) (by norm_num [w5ones]) (by norm_num [w5ones])
    (by norm_num [w5ones]) (by norm_num [w5sum, w5ones])
  exact ⟨by norm_num [w5ones], by norm_num [w5sum, w5ones], h.2.2.2.2.2⟩
